import Mathlib

/-!
Verification of the PPP estimator core (`src/ppp.c`) of
BlackiePiggy/rtklib_sat_time_sync against its natural-language specification.

Floating-point doubles are modelled as exact real numbers (`ℝ`) where
transcendental functions (`sqrt`, `sin`, `acos`, `pow`) occur, and as exact
rationals (`ℚ`) in the purely arithmetic routines, so that concrete inputs
can be evaluated.  Per-satellite arrays indexed by `sat-1` are modelled as
functions `ℕ → _`; loops that touch every satellite slot become pointwise
updates.
-/

set_option maxHeartbeats 1000000

open scoped Classical

noncomputable section

/-! ## Constants (ppp.c lines 63-103 and rtklib.h) -/

/-- Speed of light in m/s (`CLIGHT` in rtklib.h). -/
def CLIGHT : ℚ := 299792458

/-- `#define MWGAPMAX 5.0` (ppp.c line 75). -/
def MWGAPMAX : ℝ := 5

/-- `#define MWARCMAX 100.0` (ppp.c line 76); used as an integer saturation bound. -/
def MWARCMAX : ℕ := 100

/-- `#define MWCSMIN 0.8` (ppp.c line 77). -/
def MWCSMIN : ℝ := 8/10

/-- `#define VAR_BIAS SQR(60.0)` (ppp.c line 86). -/
def VAR_BIAS : ℚ := 3600

/-- Earth equatorial radius `RE_WGS84` (rtklib.h), in meters. -/
def RE_WGS84 : ℝ := 6378137

/-! ## Melbourne-Wubbena slip detector (`detslp_mw`, ppp.c lines 570-652)

The per-satellite state touched by `detslp_mw`: previous MW value `mw`,
running mean `mwmean`, running second moment `mwmean2`, arc length `mwarc`,
and the per-frequency slip bit arrays.  Slip bits hold 0/1 in this code, so
they are modelled as `Bool`. -/

structure MwSat where
  mw : ℝ
  mwmean : ℝ
  mwmean2 : ℝ
  mwarc : ℕ
  slip : ℕ → Bool
  slipMW : ℕ → Bool

/-- `for (j = 0; j < rtk->opt.nf; j++) slip[j] |= 1`: set the bits for all
frequencies below `nf`. -/
def markSlips (nf : ℕ) (s : ℕ → Bool) : ℕ → Bool :=
  fun j => if j < nf then true else s j

/-- Body of the `detslp_mw` per-satellite loop iteration (ppp.c lines
585-651) for one satellite, given the current MW combination `mw1`
(`mwmeas(obs+i,nav)`), the wide-lane wavelength `lamW`, and the number of
frequencies `nf`.  Returns the updated per-satellite record. -/
def detslp_mw_sat (nf : ℕ) (lamW mw1 : ℝ) (s : MwSat) : MwSat :=
  if mw1 = 0 then s
  else
    -- mw0 = ssat->mw; ssat->mw = mw1
    let mw0 := s.mw
    let s1 : MwSat := { s with mw := mw1 }
    if s.mwarc = 0 ∨ mw0 = 0 then
      { s1 with mwmean := mw1, mwmean2 := lamW / 2, mwarc := 1 }
    else if s.slip 0 = true ∨ s.slip 1 = true then
      { s1 with slip := markSlips nf s.slip,
                mwmean := mw1, mwmean2 := lamW / 2, mwarc := 1 }
    else if |mw1 - mw0| > MWGAPMAX then
      { s1 with slip := markSlips nf s.slip, slipMW := markSlips nf s.slipMW,
                mwmean := mw1, mwmean2 := lamW / 2, mwarc := 1 }
    else
      let mwmean := s.mwmean
      let mwmean2 := s.mwmean2
      let mwdiff := mw1 - mwmean
      let mwdiffThres := min MWGAPMAX (max (4 * Real.sqrt mwmean2) MWCSMIN)
      if 4 ≤ s.mwarc ∧ |mwdiff| > mwdiffThres then
        { s1 with slip := markSlips nf s.slip, slipMW := markSlips nf s.slipMW,
                  mwmean := mw1, mwmean2 := lamW / 2, mwarc := 1 }
      else
        let arclength := if MWARCMAX ≤ s.mwarc + 1 then MWARCMAX else s.mwarc + 1
        { s1 with
          mwmean := (((arclength : ℝ) - 1) * mwmean + mw1) / arclength,
          mwmean2 := (((arclength : ℝ) - 1) * mwmean2 + (mw1 - mwmean) * (mw1 - mwmean))
                       / arclength,
          mwarc := arclength }

example : (detslp_mw_sat 2 1 0 ⟨3, 0, 0, 0, fun _ => false, fun _ => false⟩).mw = 3 := by
  simp [detslp_mw_sat]

/-- C1: in the MW detector, for a satellite whose arc length is at least 4
and whose measurement passed the gap test, the slip threshold is
`min(MWGAPMAX, max(4*sqrt(mw_m2), MWCSMIN))`; the statistics are reset with a
slip mark exactly when `|mw - mw_mean|` exceeds it, and otherwise, with
`n = min(mw_arc+1, MWARCMAX)`, the mean becomes `((n-1)*mean + mw)/n`, the
second moment becomes `((n-1)*m2 + (mw - mean_prev)^2)/n` and the arc length
becomes `n` (growing by one per accepted epoch up to 100). -/
theorem detslp_mw_arc_update (nf : ℕ) (lamW mw1 : ℝ) (s : MwSat)
    (h1 : mw1 ≠ 0) (h2 : s.mwarc ≠ 0) (h3 : s.mw ≠ 0)
    (h4 : s.slip 0 = false) (h5 : s.slip 1 = false)
    (h6 : ¬ |mw1 - s.mw| > MWGAPMAX) (h7 : 4 ≤ s.mwarc) :
    (|mw1 - s.mwmean| > min MWGAPMAX (max (4 * Real.sqrt s.mwmean2) MWCSMIN) →
       (detslp_mw_sat nf lamW mw1 s).mwmean = mw1 ∧
       (detslp_mw_sat nf lamW mw1 s).mwmean2 = lamW / 2 ∧
       (detslp_mw_sat nf lamW mw1 s).mwarc = 1 ∧
       (∀ j < nf, (detslp_mw_sat nf lamW mw1 s).slip j = true ∧
                  (detslp_mw_sat nf lamW mw1 s).slipMW j = true)) ∧
    (¬ |mw1 - s.mwmean| > min MWGAPMAX (max (4 * Real.sqrt s.mwmean2) MWCSMIN) →
       (detslp_mw_sat nf lamW mw1 s).mwmean =
         ((((min (s.mwarc + 1) MWARCMAX : ℕ) : ℝ) - 1) * s.mwmean + mw1) /
           ((min (s.mwarc + 1) MWARCMAX : ℕ) : ℝ) ∧
       (detslp_mw_sat nf lamW mw1 s).mwmean2 =
         ((((min (s.mwarc + 1) MWARCMAX : ℕ) : ℝ) - 1) * s.mwmean2 +
            (mw1 - s.mwmean) * (mw1 - s.mwmean)) /
           ((min (s.mwarc + 1) MWARCMAX : ℕ) : ℝ) ∧
       (detslp_mw_sat nf lamW mw1 s).mwarc = min (s.mwarc + 1) MWARCMAX ∧
       (detslp_mw_sat nf lamW mw1 s).slip = s.slip ∧
       (detslp_mw_sat nf lamW mw1 s).slipMW = s.slipMW) := by
  have hb : ¬ (s.mwarc = 0 ∨ s.mw = 0) := by
    rintro (h | h)
    · exact h2 h
    · exact h3 h
  have hsl : ¬ (s.slip 0 = true ∨ s.slip 1 = true) := by
    rintro (h | h)
    · rw [h4] at h; exact Bool.false_ne_true h
    · rw [h5] at h; exact Bool.false_ne_true h
  constructor
  · intro hthr
    have harc : 4 ≤ s.mwarc ∧
        |mw1 - s.mwmean| > min MWGAPMAX (max (4 * Real.sqrt s.mwmean2) MWCSMIN) :=
      ⟨h7, hthr⟩
    simp only [detslp_mw_sat, if_neg h1, if_neg hb, if_neg hsl, if_neg h6, if_pos harc]
    refine ⟨trivial, trivial, trivial, ?_⟩
    intro j hj
    simp [markSlips, hj]
  · intro hthr
    have harc : ¬ (4 ≤ s.mwarc ∧
        |mw1 - s.mwmean| > min MWGAPMAX (max (4 * Real.sqrt s.mwmean2) MWCSMIN)) := by
      rintro ⟨-, h⟩; exact hthr h
    have hmin : (if MWARCMAX ≤ s.mwarc + 1 then MWARCMAX else s.mwarc + 1) =
        min (s.mwarc + 1) MWARCMAX := by
      rcases le_or_lt MWARCMAX (s.mwarc + 1) with h | h
      · rw [if_pos h, min_eq_right h]
      · rw [if_neg (not_le.mpr h), min_eq_left h.le]
    simp only [detslp_mw_sat, if_neg h1, if_neg hb, if_neg hsl, if_neg h6, if_neg harc, hmin]
    exact ⟨trivial, trivial, trivial, trivial, trivial⟩

def mwW : MwSat := ⟨10, 10, 1, 4, fun _ => false, fun _ => false⟩

/-- Witness for C1: a concrete accepted epoch with `mw_arc = 4`, `mw_m2 = 1`
(threshold `min(5, max(4,0.8)) = 4`) and `|mw - mw_mean| = 1/2`, so the
statistics update to mean `10.1`, second moment `0.85`, arc `5`. -/
theorem detslp_mw_arc_update_w :
    (detslp_mw_sat 2 1 (21/2) mwW).mwmean = 101/10 ∧
    (detslp_mw_sat 2 1 (21/2) mwW).mwmean2 = 17/20 ∧
    (detslp_mw_sat 2 1 (21/2) mwW).mwarc = 5 := by
  have habs : |(21/2 : ℝ) - mwW.mw| = 1/2 := by
    rw [show (21/2 : ℝ) - mwW.mw = 1/2 from by norm_num [mwW]]
    exact abs_of_nonneg (by norm_num)
  have habs2 : |(21/2 : ℝ) - mwW.mwmean| = 1/2 := by
    rw [show (21/2 : ℝ) - mwW.mwmean = 1/2 from by norm_num [mwW]]
    exact abs_of_nonneg (by norm_num)
  have H := (detslp_mw_arc_update 2 1 (21/2) mwW
    (by norm_num) (by norm_num [mwW]) (by norm_num [mwW]) rfl rfl
    (by rw [habs]; norm_num [MWGAPMAX]) (by norm_num [mwW])).2
    (by rw [habs2]
        norm_num [mwW, MWGAPMAX, MWCSMIN, Real.sqrt_one])
  obtain ⟨e1, e2, e3, -, -⟩ := H
  refine ⟨?_, ?_, ?_⟩
  · rw [e1]; norm_num [mwW, MWARCMAX]
  · rw [e2]; norm_num [mwW, MWARCMAX]
  · rw [e3]; norm_num [mwW, MWARCMAX]

/-- C2: in the MW detector, for a satellite with a nonzero previous MW value
and no reset condition (`mw_arc ≠ 0`), if `|mw - mw_prev|` exceeds 10.0 then
a slip is marked on every frequency and the running statistics are reset to
`mean = mw`, `m2 = lamW/2`, `arc = 1`.  (The code's gap threshold `MWGAPMAX`
is 5.0, so a jump above 10.0 always triggers it.) -/
theorem detslp_mw_gap_slip (nf : ℕ) (lamW mw1 : ℝ) (s : MwSat)
    (h1 : mw1 ≠ 0) (h2 : s.mwarc ≠ 0) (h3 : s.mw ≠ 0)
    (h4 : |mw1 - s.mw| > 10) :
    (∀ j < nf, (detslp_mw_sat nf lamW mw1 s).slip j = true) ∧
    (detslp_mw_sat nf lamW mw1 s).mwmean = mw1 ∧
    (detslp_mw_sat nf lamW mw1 s).mwmean2 = lamW / 2 ∧
    (detslp_mw_sat nf lamW mw1 s).mwarc = 1 := by
  have hb : ¬ (s.mwarc = 0 ∨ s.mw = 0) := by
    rintro (h | h)
    · exact h2 h
    · exact h3 h
  have hgap : |mw1 - s.mw| > MWGAPMAX := by
    have : MWGAPMAX < 10 := by norm_num [MWGAPMAX]
    linarith
  by_cases hsl : s.slip 0 = true ∨ s.slip 1 = true
  · simp only [detslp_mw_sat, if_neg h1, if_neg hb, if_pos hsl]
    refine ⟨?_, trivial, trivial, trivial⟩
    intro j hj
    simp [markSlips, hj]
  · simp only [detslp_mw_sat, if_neg h1, if_neg hb, if_neg hsl, if_pos hgap]
    refine ⟨?_, trivial, trivial, trivial⟩
    intro j hj
    simp [markSlips, hj]

def mwW2 : MwSat := ⟨1, 1, 1, 1, fun _ => false, fun _ => false⟩

/-- Witness for C2: a concrete MW jump of 19 (> 10) marks a slip on both
frequencies and resets the arc to 1. -/
theorem detslp_mw_gap_slip_w :
    (detslp_mw_sat 2 1 20 mwW2).slip 0 = true ∧
    (detslp_mw_sat 2 1 20 mwW2).slip 1 = true ∧
    (detslp_mw_sat 2 1 20 mwW2).mwarc = 1 := by
  have habs : |(20 : ℝ) - mwW2.mw| = 19 := by
    rw [show (20 : ℝ) - mwW2.mw = 19 from by norm_num [mwW2]]
    exact abs_of_nonneg (by norm_num)
  have H := detslp_mw_gap_slip 2 1 20 mwW2
    (by norm_num) (by norm_num [mwW2]) (by norm_num [mwW2])
    (by rw [habs]; norm_num)
  exact ⟨H.1 0 (by norm_num), H.1 1 (by norm_num), H.2.2.2⟩

/-! ## Phase-bias time update (`udbias_ppp`, ppp.c lines 849-942)

For one frequency `f`, the per-observation data entering the jump-correction
and reinitialization loops: the satellite number, the locally computed bias
`bias[i]` and the slip flag `slip[i]`.  The ambiguity states `X[IB(sat,f)]`
and the covariance diagonals `P[IB(sat,f)][IB(sat,f)]` are modelled as
functions of the satellite number (frequency `f` fixed), over `ℚ`. -/

structure BObs where
  sat : ℕ
  bias : ℚ
  slip : Bool

/-- `if (rtk->x[j]==0.0||slip[i]||bias[i]==0.0) continue;` (ppp.c line 910). -/
def bSkip (x : ℕ → ℚ) (o : BObs) : Bool :=
  if x o.sat = 0 ∨ o.slip = true ∨ o.bias = 0 then true else false

/-- The `offseti` array (ppp.c lines 853, 911): zero-initialized, written at
the observation's own index when the entry is accepted.  Entry `i` of the
result corresponds to `offseti[i]`. -/
def offsetiArr (x : ℕ → ℚ) (obs : List BObs) : List ℚ :=
  obs.map fun o => if bSkip x o then 0 else o.bias - x o.sat

/-- The counter `k` of accepted entries (ppp.c lines 888-914). -/
def acceptCount (x : ℕ → ℚ) (obs : List BObs) : ℕ :=
  (obs.filter fun o => ! bSkip x o).length

/-- `CausedByOneSat` (ppp.c lines 833-847): scans the first `n` array
entries; `max` starts from `a[0]` and `sum` starts from `a[0]` before the
loop adds `a[0]` again. -/
def causedByOneSat (a : List ℚ) (n : ℕ) : Bool :=
  let a0 := a.headD 0
  let m := (List.range n).foldl (fun acc i => if a.getD i 0 > acc then a.getD i 0 else acc) a0
  let s := (List.range n).foldl (fun acc i => acc + a.getD i 0) a0
  if m > 2 * s / (n : ℚ) then false else true

/-- Phase-code jump correction (ppp.c lines 915-924): when at least two
entries were accepted, the mean offset magnitude exceeds `0.0005*CLIGHT`
and `CausedByOneSat` returned 1, every nonzero ambiguity state receives the
mean offset. -/
def udbias_jump (x : ℕ → ℚ) (obs : List BObs) : ℕ → ℚ :=
  let oi := offsetiArr x obs
  let k := acceptCount x obs
  let offset := oi.sum
  if 2 ≤ k ∧ |offset / (k : ℚ)| > 5/10000 * CLIGHT ∧ causedByOneSat oi k = true then
    fun j => if x j ≠ 0 then x j + offset / (k : ℚ) else x j
  else x

/-- Ambiguity state (value and covariance diagonal) per satellite at a fixed
frequency. -/
structure BState where
  x : ℕ → ℚ
  p : ℕ → ℚ

/-- One iteration of the reinitialization loop (ppp.c lines 925-940): the
covariance diagonal is inflated by `prn[0]^2*|tt|` (`ptt`), then the bias is
reinitialized to `bias[i]` with variance `VAR_BIAS` unless `bias[i] = 0` or
(`x` nonzero and no slip). -/
def udbias_reinit_step (ptt : ℚ) (st : BState) (o : BObs) : BState :=
  let p1 := fun j => if j = o.sat then st.p o.sat + ptt else st.p j
  if o.bias = 0 ∨ (st.x o.sat ≠ 0 ∧ o.slip = false) then { st with p := p1 }
  else { x := fun j => if j = o.sat then o.bias else st.x j,
         p := fun j => if j = o.sat then VAR_BIAS else p1 j }

def udbias_reinit (ptt : ℚ) (st : BState) (obs : List BObs) : BState :=
  obs.foldl (udbias_reinit_step ptt) st

/-- The per-frequency tail of `udbias_ppp` (ppp.c lines 888-941): the
offset collection with jump correction, followed by the reinitialization
loop. -/
def udbias_step (ptt : ℚ) (st : BState) (obs : List BObs) : BState :=
  udbias_reinit ptt ⟨udbias_jump st.x obs, st.p⟩ obs

example : udbias_jump (fun _ => 0) [] 3 = 0 := by simp [udbias_jump]

def c3X : ℕ → ℚ := fun j => if j = 1 ∨ j = 2 then 1 else 0

def c3Obs : List BObs := [⟨1, -199999, false⟩, ⟨2, -199999, false⟩]

/-- C3 counterexample: two active non-slipped satellites, both with offset
`-200000`.  The claim's conditions hold (mean magnitude `200000` exceeds
`0.0005*c ≈ 149896`, and `max|offset| = 200000 ≤ 2*Σ|offset|/n = 400000`),
so the claim requires every nonzero ambiguity state to move by the mean
offset; but the code's `CausedByOneSat` compares the signed maximum
`-200000` against `2*sum/n = -600000` (with `a[0]` double-counted), returns
0, and the state is left unchanged. -/
theorem udbias_jump_cex :
    udbias_jump c3X c3Obs 1 = 1 ∧
    |((-200000 : ℚ) + -200000) / 2| > 5/10000 * CLIGHT ∧
    max |(-200000 : ℚ)| |(-200000 : ℚ)| ≤ 2 * (|(-200000 : ℚ)| + |(-200000 : ℚ)|) / 2 ∧
    (1 : ℚ) + ((-200000 : ℚ) + -200000) / 2 ≠ 1 := by
  have hoi : offsetiArr c3X c3Obs = [-200000, -200000] := by
    norm_num [offsetiArr, c3Obs, bSkip, c3X]
  have hk : acceptCount c3X c3Obs = 2 := by
    norm_num [acceptCount, c3Obs, bSkip, c3X]
  have hone : causedByOneSat (offsetiArr c3X c3Obs) (acceptCount c3X c3Obs) = false := by
    rw [hoi, hk, causedByOneSat]
    norm_num [List.range_succ, List.getD]
  refine ⟨?_, ?_, ?_, ?_⟩
  · rw [udbias_jump]
    rw [if_neg (by rintro ⟨-, -, h⟩; rw [hone] at h; exact Bool.false_ne_true h)]
    simp [c3X]
  · rw [show |((-200000 : ℚ) + -200000) / 2| = 200000 from by
      rw [show ((-200000 : ℚ) + -200000) / 2 = -200000 from by norm_num, abs_neg,
        abs_of_nonneg (by norm_num)]]
    norm_num [CLIGHT]
  · rw [abs_neg, abs_of_nonneg (by norm_num : (0:ℚ) ≤ 200000)]
    norm_num
  · norm_num

lemma ite_gt_eq_max (acc v : ℚ) : (if v > acc then v else acc) = max acc v := by
  rcases le_or_lt v acc with h | h
  · rw [if_neg (not_lt.mpr h), max_eq_left h]
  · rw [if_pos h, max_eq_right h.le]

lemma foldl_range_getD_max (a : List ℚ) (n : ℕ) :
    ∀ a0 : ℚ, n ≤ a.length →
      (List.range n).foldl (fun acc i => if a.getD i 0 > acc then a.getD i 0 else acc) a0
        = (a.take n).foldl max a0 := by
  induction n with
  | zero => intro a0 h; simp
  | succ n ih =>
    intro a0 h
    have hn : n < a.length := h
    rw [List.range_succ, List.foldl_append, ih a0 (Nat.le_of_succ_le h),
      List.take_succ, List.getElem?_eq_getElem hn]
    simp only [Option.toList_some, List.foldl_append, List.foldl_cons, List.foldl_nil,
      ite_gt_eq_max, List.getD_eq_getElem a 0 hn]

lemma foldl_range_getD_sum (a : List ℚ) (n : ℕ) :
    ∀ a0 : ℚ, n ≤ a.length →
      (List.range n).foldl (fun acc i => acc + a.getD i 0) a0 = a0 + (a.take n).sum := by
  induction n with
  | zero => intro a0 h; simp
  | succ n ih =>
    intro a0 h
    have hn : n < a.length := h
    rw [List.range_succ, List.foldl_append, ih a0 (Nat.le_of_succ_le h),
      List.take_succ, List.sum_append, List.getElem?_eq_getElem hn]
    simp only [Option.toList_some, List.sum_cons, List.sum_nil, List.foldl_cons,
      List.foldl_nil, List.getD_eq_getElem a 0 hn]
    ring

/-- C3 amended: the jump correction adds the mean offset
`Σ offseti / k` to every nonzero ambiguity state exactly when `k ≥ 2`, the
mean magnitude exceeds `0.0005*CLIGHT`, and the *signed* maximum of the
first `k` slots of the observation-indexed `offseti` array (zeros standing
at skipped slots) is at most `2*s/k`, where `s` double-counts `offseti[0]`;
otherwise no ambiguity state is modified. -/
theorem udbias_jump_spec (x : ℕ → ℚ) (obs : List BObs) (j : ℕ) :
    udbias_jump x obs j =
      if 2 ≤ acceptCount x obs ∧
         |(offsetiArr x obs).sum / (acceptCount x obs : ℚ)| > 5/10000 * CLIGHT ∧
         ((offsetiArr x obs).take (acceptCount x obs)).foldl max ((offsetiArr x obs).headD 0)
           ≤ 2 * ((offsetiArr x obs).headD 0 +
                  ((offsetiArr x obs).take (acceptCount x obs)).sum) /
               (acceptCount x obs : ℚ)
      then (if x j ≠ 0 then x j + (offsetiArr x obs).sum / (acceptCount x obs : ℚ) else x j)
      else x j := by
  have hk : acceptCount x obs ≤ (offsetiArr x obs).length := by
    rw [acceptCount, offsetiArr, List.length_map]
    exact List.length_filter_le _ _
  have hmax := foldl_range_getD_max (offsetiArr x obs) (acceptCount x obs)
    ((offsetiArr x obs).headD 0) hk
  have hsum := foldl_range_getD_sum (offsetiArr x obs) (acceptCount x obs)
    ((offsetiArr x obs).headD 0) hk
  have hinner : ((if ((offsetiArr x obs).take (acceptCount x obs)).foldl max
        ((offsetiArr x obs).headD 0) >
        2 * ((offsetiArr x obs).headD 0 + ((offsetiArr x obs).take (acceptCount x obs)).sum) /
          (acceptCount x obs : ℚ) then false else true) = true) ↔
      ((offsetiArr x obs).take (acceptCount x obs)).foldl max ((offsetiArr x obs).headD 0)
        ≤ 2 * ((offsetiArr x obs).headD 0 +
               ((offsetiArr x obs).take (acceptCount x obs)).sum) /
            (acceptCount x obs : ℚ) := by
    by_cases hm : ((offsetiArr x obs).take (acceptCount x obs)).foldl max
        ((offsetiArr x obs).headD 0) >
        2 * ((offsetiArr x obs).headD 0 + ((offsetiArr x obs).take (acceptCount x obs)).sum) /
          (acceptCount x obs : ℚ)
    · rw [if_pos hm]
      exact iff_of_false Bool.false_ne_true (not_le.mpr hm)
    · rw [if_neg hm]
      exact iff_of_true rfl (not_lt.mp hm)
  rw [udbias_jump, causedByOneSat]
  simp only [hmax, hsum, ite_apply]
  exact if_congr (and_congr_right fun _ => and_congr_right fun _ => hinner) rfl rfl

lemma udbias_reinit_untouched (ptt : ℚ) (l : List BObs) (s : ℕ)
    (h : ∀ o ∈ l, o.sat ≠ s) :
    ∀ st : BState,
      (udbias_reinit ptt st l).x s = st.x s ∧ (udbias_reinit ptt st l).p s = st.p s := by
  induction l with
  | nil => intro st; exact ⟨rfl, rfl⟩
  | cons a l ih =>
    intro st
    have ha : s ≠ a.sat := fun e => h a (by simp) e.symm
    have hstep : (udbias_reinit_step ptt st a).x s = st.x s ∧
        (udbias_reinit_step ptt st a).p s = st.p s := by
      simp only [udbias_reinit_step]
      split_ifs with hc
      · exact ⟨rfl, by simp [if_neg ha]⟩
      · exact ⟨by simp [if_neg ha], by simp [if_neg ha]⟩
    have htail := ih (fun o ho => h o (by simp [ho])) (udbias_reinit_step ptt st a)
    rw [udbias_reinit, List.foldl_cons]
    exact ⟨htail.1.trans hstep.1, htail.2.trans hstep.2⟩

def c4St : BState := ⟨fun _ => 5, fun _ => 2⟩

def c4Obs : List BObs := [⟨1, 0, true⟩]

/-- C4 counterexample: satellite 1 carries a slip flag but its locally
computed bias is zero (e.g. a missing measurement on this frequency), so the
reinitialization is skipped: the ambiguity diagonal ends at `2 + 3 = 5`,
not at `VAR_BIAS = 3600`, and the state keeps its old value 5. -/
theorem udbias_slip_cex :
    (udbias_step 3 c4St c4Obs).p 1 = 5 ∧ (5 : ℚ) ≠ VAR_BIAS ∧
    (udbias_step 3 c4St c4Obs).x 1 = 5 := by
  have hj : udbias_jump c4St.x c4Obs = c4St.x := by
    rw [udbias_jump]
    rw [if_neg (by
      rintro ⟨h1, -, -⟩
      rw [show acceptCount c4St.x c4Obs = 0 from by norm_num [acceptCount, c4Obs, bSkip, c4St]]
        at h1
      exact absurd h1 (by norm_num))]
  refine ⟨?_, by norm_num [VAR_BIAS], ?_⟩
  · rw [udbias_step, hj]
    show (udbias_reinit 3 ⟨c4St.x, c4St.p⟩ c4Obs).p 1 = 5
    rw [udbias_reinit, c4Obs, List.foldl_cons, List.foldl_nil]
    simp only [udbias_reinit_step]
    rw [if_pos (Or.inl trivial)]
    norm_num [c4St]
  · rw [udbias_step, hj]
    show (udbias_reinit 3 ⟨c4St.x, c4St.p⟩ c4Obs).x 1 = 5
    rw [udbias_reinit, c4Obs, List.foldl_cons, List.foldl_nil]
    simp only [udbias_reinit_step]
    rw [if_pos (Or.inl trivial)]
    norm_num [c4St]

/-- C4 amended: if a slip detector set `slip[sat,f]` at the current epoch
*and the locally computed bias is nonzero*, then after the phase-bias time
update the ambiguity covariance diagonal of `IB(sat,f)` equals `VAR_BIAS`
and the state equals the locally computed bias (satellites appear at most
once per epoch). -/
theorem udbias_slip_reinit (ptt : ℚ) (st : BState) (obs : List BObs) (o : BObs)
    (hmem : o ∈ obs) (hnd : (obs.map BObs.sat).Nodup)
    (hs : o.slip = true) (hb : o.bias ≠ 0) :
    (udbias_step ptt st obs).x o.sat = o.bias ∧
    (udbias_step ptt st obs).p o.sat = VAR_BIAS := by
  rw [udbias_step]
  suffices h : ∀ l : List BObs, o ∈ l → (l.map BObs.sat).Nodup →
      ∀ st' : BState, (udbias_reinit ptt st' l).x o.sat = o.bias ∧
        (udbias_reinit ptt st' l).p o.sat = VAR_BIAS from
    h obs hmem hnd _
  intro l
  induction l with
  | nil => intro hm; cases hm
  | cons a l ih =>
    intro hm hnod st'
    rw [udbias_reinit, List.foldl_cons]
    rcases List.mem_cons.mp hm with rfl | hm'
    · have hnotin : ∀ o' ∈ l, o'.sat ≠ o.sat := by
        intro o' ho' he
        exact (List.nodup_cons.mp hnod).1 (he ▸ List.mem_map_of_mem BObs.sat ho')
      have hc : ¬ (o.bias = 0 ∨ (st'.x o.sat ≠ 0 ∧ o.slip = false)) := by
        rintro (h | ⟨-, h⟩)
        · exact hb h
        · rw [hs] at h; exact absurd h (by simp)
      have hstep : (udbias_reinit_step ptt st' o).x o.sat = o.bias ∧
          (udbias_reinit_step ptt st' o).p o.sat = VAR_BIAS := by
        simp only [udbias_reinit_step]
        rw [if_neg hc]
        exact ⟨by simp, by simp⟩
      have htail := udbias_reinit_untouched ptt l o.sat hnotin (udbias_reinit_step ptt st' o)
      exact ⟨htail.1.trans hstep.1, htail.2.trans hstep.2⟩
    · exact ih hm' (List.nodup_cons.mp hnod).2 (udbias_reinit_step ptt st' a)

def c4ObsW : List BObs := [⟨1, 7, true⟩]

/-- Witness for C4: a slipped satellite with nonzero bias 7 ends with state
7 and diagonal `VAR_BIAS`. -/
theorem udbias_slip_reinit_w :
    (udbias_step 3 c4St c4ObsW).x 1 = 7 ∧ (udbias_step 3 c4St c4ObsW).p 1 = VAR_BIAS :=
  udbias_slip_reinit 3 c4St c4ObsW ⟨1, 7, true⟩ (by simp [c4ObsW]) (by simp [c4ObsW]) rfl
    (by norm_num)

/-! ## Day-boundary / outage reset of phase biases (ppp.c lines 858-887)

The `clk_jump` flag (ppp.c lines 858-861) is computed only when
`rtk->opt.posopt[5]` is set; `ROUND(x)` is `(int)floor(x+0.5)`.  The reset
loop then deactivates the ambiguity of every satellite and frequency for
which the pre-incremented outage counter exceeds `maxout`, or instantaneous
AR is active, or the `clk_jump` flag is set. -/

/-- `clk_jump = ROUND(time2gpst(obs[0].time,NULL)*10)%864000 == 0`, gated on
`posopt[5]`. -/
def clk_jump_flag (posopt5 : Bool) (tow : ℚ) : Bool :=
  posopt5 && decide (⌊tow * 10 + 1/2⌋ % 864000 = 0)

/-- Per-(satellite, frequency) ambiguity cell: outage counter, state value
and covariance diagonal. -/
structure AmbCell where
  outc : ℕ
  x : ℚ
  p : ℚ

/-- One cell of the reset loop (ppp.c lines 881-887): increment `outc[f]`,
then `initx(rtk, 0.0, 0.0, IB(i+1,f,&rtk->opt))` when the incremented
counter exceeds `maxout`, or `ARMODE_INST`, or `clk_jump`. -/
def udbias_reset_cell (maxout : ℕ) (instar clkJump : Bool) (c : AmbCell) : AmbCell :=
  let oc := c.outc + 1
  if maxout < oc ∨ instar = true ∨ clkJump = true then ⟨oc, 0, 0⟩ else ⟨oc, c.x, c.p⟩

/-- The reset loop over all satellites and the frequencies `f < NF` (the
loop `for (f=0;f<NF;f++) for (i=0;i<MAXSAT;i++)`). -/
def udbias_reset (nf maxout : ℕ) (instar posopt5 : Bool) (tow : ℚ)
    (st : ℕ → ℕ → AmbCell) : ℕ → ℕ → AmbCell :=
  fun sat f =>
    if f < nf then udbias_reset_cell maxout instar (clk_jump_flag posopt5 tow) (st sat f)
    else st sat f

def c5St : ℕ → ℕ → AmbCell := fun _ _ => ⟨0, 5, 2⟩

/-- C5 counterexample: at `tow = 86400` the day-boundary condition
`round(tow*10) mod 864000 == 0` holds, but with `posopt[5]` disabled the
`clk_jump` flag stays 0 and no ambiguity is deactivated: satellite 1,
frequency 0 keeps state 5 (the claim demands 0). -/
theorem udbias_reset_cex :
    ⌊(86400 : ℚ) * 10 + 1/2⌋ % 864000 = 0 ∧
    (udbias_reset 2 5 false false 86400 c5St 1 0).x = 5 ∧
    (udbias_reset 2 5 false false 86400 c5St 1 0).p = 2 ∧ (5 : ℚ) ≠ 0 := by
  refine ⟨by norm_num, ?_, ?_, by norm_num⟩
  · rw [udbias_reset, if_pos (by norm_num), udbias_reset_cell]
    rw [if_neg (by
      rintro (h | h | h)
      · exact absurd h (by norm_num [c5St])
      · exact Bool.false_ne_true h
      · rw [clk_jump_flag] at h; exact Bool.false_ne_true ((Bool.false_and _) ▸ h))]
    norm_num [c5St]
  · rw [udbias_reset, if_pos (by norm_num), udbias_reset_cell]
    rw [if_neg (by
      rintro (h | h | h)
      · exact absurd h (by norm_num [c5St])
      · exact Bool.false_ne_true h
      · rw [clk_jump_flag] at h; exact Bool.false_ne_true ((Bool.false_and _) ▸ h))]
    norm_num [c5St]

/-- C5 amended: when `posopt[5]` is enabled and the epoch's time of week
satisfies `round(tow*10) mod 864000 == 0`, the phase-bias time update
deactivates every ambiguity (value 0, variance 0) for every satellite and
every frequency `f < NF`; the same deactivation happens whenever the
incremented outage counter exceeds `maxout` or in instantaneous-AR mode. -/
theorem udbias_reset_deactivates (nf maxout : ℕ) (instar posopt5 : Bool) (tow : ℚ)
    (st : ℕ → ℕ → AmbCell) (sat f : ℕ) (hf : f < nf)
    (h : (posopt5 = true ∧ ⌊tow * 10 + 1/2⌋ % 864000 = 0) ∨ instar = true ∨
         maxout < (st sat f).outc + 1) :
    (udbias_reset nf maxout instar posopt5 tow st sat f).x = 0 ∧
    (udbias_reset nf maxout instar posopt5 tow st sat f).p = 0 := by
  rw [udbias_reset, if_pos hf, udbias_reset_cell]
  have hc : maxout < (st sat f).outc + 1 ∨ instar = true ∨
      clk_jump_flag posopt5 tow = true := by
    rcases h with ⟨hp, hd⟩ | h | h
    · exact Or.inr (Or.inr (by rw [clk_jump_flag, hp, Bool.true_and]; exact decide_eq_true hd))
    · exact Or.inr (Or.inl h)
    · exact Or.inl h
  rw [if_pos hc]
  exact ⟨rfl, rfl⟩

/-- Witness for C5: with `posopt[5]` on and `tow = 86400`, the cell of
satellite 1, frequency 0 is deactivated. -/
theorem udbias_reset_deactivates_w :
    (udbias_reset 2 5 false true 86400 c5St 1 0).x = 0 ∧
    (udbias_reset 2 5 false true 86400 c5St 1 0).p = 0 :=
  udbias_reset_deactivates 2 5 false true 86400 c5St 1 0 (by norm_num)
    (Or.inl ⟨rfl, by norm_num⟩)

/-! ## BDS-2 multipath correction (`corr_bds2_multipath`, ppp.c lines 347-385) -/

/-- `BDsType` (ppp.c lines 121-130): BDS PRN to satellite type. -/
def BDsType : List String := [
  "BDS2-G", "BDS2-G", "BDS2-G", "BDS2-G", "BDS2-G", "BDS2-I",
  "BDS2-I", "BDS2-I", "BDS2-I", "BDS2-I", "BDS2-M", "BDS2-M",
  "BDS2-I", "BDS2-M", "",       "BDS2-I", "",       "BDS2-G",
  "BDS3-M", "BDS3-M", "BDS3-M", "BDS3-M", "BDS3-M", "BDS3-M",
  "BDS3-M", "BDS3-M", "BDS3-M", "BDS3-M", "BDS3-M", "BDS3-M",
  "BDS3-I", "BDS3-M", "BDS3-M", "BDS3-M", "BDS3-M", "BDS3-M",
  "BDS3-M", "BDS3-I", "BDS3-I", "BDS3-I", "BDS3-M", "BDS3-M",
  "BDS3-M", "BDS3-M", "BDS3-M", "BDS3-M"]

/-- The fixed 10-row by 6-column coefficient table `coef` (ppp.c lines
352-363). -/
def bds2Coef : List (List ℚ) := [
  [-0.55, -0.71, -0.27, -0.47, -0.40, -0.22],
  [-0.40, -0.36, -0.23, -0.38, -0.31, -0.15],
  [-0.34, -0.33, -0.21, -0.32, -0.26, -0.13],
  [-0.23, -0.19, -0.15, -0.23, -0.18, -0.10],
  [-0.15, -0.14, -0.11, -0.11, -0.06, -0.04],
  [-0.04, -0.03, -0.04,  0.06,  0.09,  0.05],
  [ 0.09,  0.08,  0.05,  0.34,  0.28,  0.14],
  [ 0.19,  0.17,  0.14,  0.69,  0.48,  0.27],
  [ 0.27,  0.24,  0.19,  0.97,  0.64,  0.36],
  [ 0.35,  0.33,  0.32,  1.05,  0.69,  0.47]]

def coefAt (r c : ℕ) : ℚ := (bds2Coef.getD r []).getD c 0

/-- `corr_bds2_multipath` (ppp.c lines 347-385): `prn` is the BDS PRN
parsed from the satellite id, `eld` the elevation in degrees
(`azel[1]*R2D`), `P` the three code pseudoranges.  Satellites whose type is
not `BDS2-I`, `BDS2-M` or `BDS2-G` are returned unchanged. -/
def corr_bds2_multipath (prn : ℕ) (eld : ℚ) (P : ℕ → ℚ) : ℕ → ℚ :=
  let typ := BDsType.getD (prn - 1) ""
  let nType := if typ = "BDS2-I" then 1 else if typ = "BDS2-M" then 2
               else if typ = "BDS2-G" then 2 else 0
  if nType = 0 then P
  else if eld ≤ 0 then
    fun i => if i < 3 then P i + coefAt 0 ((nType - 1) * 3 + i) else P i
  else if eld ≥ 90 then
    fun i => if i < 3 then P i + coefAt 9 ((nType - 1) * 3 + i) else P i
  else
    let idx := (⌊eld / 10⌋).toNat
    fun i => if i < 3 then
      P i + (coefAt (idx + 1) ((nType - 1) * 3 + i) - coefAt idx ((nType - 1) * 3 + i)) / 10
              * (eld - ((idx : ℚ) - 1) * 10)
          + coefAt idx ((nType - 1) * 3 + i)
    else P i

/-- Modelled from the spec: the correction the claim describes for
`0 < eld < 90` — the linear interpolation of the two rows surrounding the
elevation's 10-degree bin, evaluated at the actual elevation. -/
def bds2SpecCorrection (nType i : ℕ) (eld : ℚ) : ℚ :=
  if eld ≤ 0 then coefAt 0 ((nType - 1) * 3 + i)
  else if eld ≥ 90 then coefAt 9 ((nType - 1) * 3 + i)
  else
    let idx := (⌊eld / 10⌋).toNat
    coefAt idx ((nType - 1) * 3 + i) +
      (coefAt (idx + 1) ((nType - 1) * 3 + i) - coefAt idx ((nType - 1) * 3 + i)) / 10
        * (eld - (idx : ℚ) * 10)

/-- C6: at the failing input (PRN 6, a `BDS2-I` satellite, elevation 5
degrees, first code channel) the code adds `-0.325` m because the
interpolation evaluates at `eld - (idx-1)*10` instead of `eld - idx*10`;
the linear interpolation of rows 0 and 1 at 5 degrees required by the claim
is `-0.475` m. -/
theorem corr_bds2_multipath_bug :
    corr_bds2_multipath 6 5 (fun _ => 0) 0 = -13/40 ∧
    bds2SpecCorrection 1 0 5 = -19/40 ∧
    (-13/40 : ℚ) ≠ -19/40 := by
  refine ⟨?_, ?_, by norm_num⟩
  · rw [show corr_bds2_multipath 6 5 (fun _ => 0) 0 =
        (0 : ℚ) + (coefAt 1 0 - coefAt 0 0) / 10 * (5 - ((0 : ℚ) - 1) * 10) + coefAt 0 0 from by
      rw [corr_bds2_multipath]
      norm_num [BDsType]]
    norm_num [coefAt, bds2Coef]
  · rw [show bds2SpecCorrection 1 0 5 =
        coefAt 0 0 + (coefAt 1 0 - coefAt 0 0) / 10 * (5 - (0 : ℚ) * 10) from by
      rw [bds2SpecCorrection]
      norm_num]
    norm_num [coefAt, bds2Coef]

/-! ## Iono-free combination in `corr_meas` (ppp.c lines 450-511) -/

/-- The GNSS systems distinguished by this code's frequency selection and
error model. -/
inductive Sys
  | gps
  | glo
  | gal
  | qzs
  | sbs
  | cmp
deriving DecidableEq

/-- `i = (sys&(SYS_GAL|SYS_SBS|SYS_CMP)) ? 2 : 1` (ppp.c line 495):
0-based index of the second frequency of the iono-free pair. -/
def lcFreqIdx (sys : Sys) : ℕ :=
  match sys with
  | .gal | .sbs | .cmp => 2
  | _ => 1

/-- The iono-free LC tail of `corr_meas` (ppp.c lines 493-511): `L` and `P`
are the already corrected per-frequency measurements, `lam` the wavelength
table row of the satellite; returns `(Lc, Pc)`. -/
def corr_meas_lc (sys : Sys) (lam L P : ℕ → ℚ) : ℚ × ℚ :=
  let i := lcFreqIdx sys
  if lam 0 = 0 ∨ lam i = 0 then (0, 0)
  else
    let C1 := (lam i)^2 / ((lam i)^2 - (lam 0)^2)
    let C2 := -(lam 0)^2 / ((lam i)^2 - (lam 0)^2)
    (if L 0 ≠ 0 ∧ L i ≠ 0 then C1 * L 0 + C2 * L i else 0,
     if P 0 ≠ 0 ∧ P i ≠ 0 then C1 * P 0 + C2 * P i else 0)

/-- C7: the iono-free combinations use frequencies 1 and k with k = 2 for
GPS/QZS/GLO and k = 3 for Galileo/SBAS/BDS (1-based; 0-based index
`lcFreqIdx`), with coefficients `C1 = lam_k^2/(lam_k^2 - lam_1^2)` on the
frequency-1 measurement and `C2 = -lam_1^2/(lam_k^2 - lam_1^2)` on the
frequency-k measurement; a zero wavelength or a zero constituent
measurement yields a zero combination. -/
theorem corr_meas_lc_spec (sys : Sys) (lam L P : ℕ → ℚ) :
    ((sys = .gps ∨ sys = .qzs ∨ sys = .glo) → lcFreqIdx sys = 1) ∧
    ((sys = .gal ∨ sys = .sbs ∨ sys = .cmp) → lcFreqIdx sys = 2) ∧
    (lam 0 = 0 ∨ lam (lcFreqIdx sys) = 0 → corr_meas_lc sys lam L P = (0, 0)) ∧
    (lam 0 ≠ 0 → lam (lcFreqIdx sys) ≠ 0 →
      (corr_meas_lc sys lam L P).1 =
        (if L 0 ≠ 0 ∧ L (lcFreqIdx sys) ≠ 0 then
          (lam (lcFreqIdx sys))^2 / ((lam (lcFreqIdx sys))^2 - (lam 0)^2) * L 0 +
          (-(lam 0)^2 / ((lam (lcFreqIdx sys))^2 - (lam 0)^2)) * L (lcFreqIdx sys)
        else 0) ∧
      (corr_meas_lc sys lam L P).2 =
        (if P 0 ≠ 0 ∧ P (lcFreqIdx sys) ≠ 0 then
          (lam (lcFreqIdx sys))^2 / ((lam (lcFreqIdx sys))^2 - (lam 0)^2) * P 0 +
          (-(lam 0)^2 / ((lam (lcFreqIdx sys))^2 - (lam 0)^2)) * P (lcFreqIdx sys)
        else 0)) := by
  refine ⟨?_, ?_, ?_, ?_⟩
  · rintro (rfl | rfl | rfl) <;> rfl
  · rintro (rfl | rfl | rfl) <;> rfl
  · intro h
    rw [corr_meas_lc, if_pos h]
  · intro h0 hi
    rw [corr_meas_lc, if_neg (by rintro (h | h); exacts [h0 h, hi h])]
    exact ⟨rfl, rfl⟩

def lamW7 : ℕ → ℚ := fun i => if i = 0 then 2 else 1

/-- Witness for C7: for a GPS satellite with `lam_1 = 2`, `lam_2 = 1` and
all measurements 3, `C1 = -1/3`, `C2 = 4/3`, so `Lc = Pc = 3`. -/
theorem corr_meas_lc_spec_w :
    (corr_meas_lc .gps lamW7 (fun _ => 3) (fun _ => 3)).1 = 3 ∧
    (corr_meas_lc .gps lamW7 (fun _ => 3) (fun _ => 3)).2 = 3 := by
  have H := (corr_meas_lc_spec .gps lamW7 (fun _ => 3) (fun _ => 3)).2.2.2
    (by norm_num [lamW7]) (by norm_num [lamW7, lcFreqIdx])
  constructor
  · rw [H.1, if_pos (by norm_num)]
    norm_num [lamW7, lcFreqIdx]
  · rw [H.2, if_pos (by norm_num)]
    norm_num [lamW7, lcFreqIdx]

/-! ## Measurement error variance (`varerr`, ppp.c lines 386-420) -/

/-- `EFACT_GPS` (rtklib.h). -/
def EFACT_GPS : ℝ := 1

/-- `EFACT_GLO` (rtklib.h). -/
def EFACT_GLO : ℝ := 3/2

/-- `EFACT_SBS` (rtklib.h). -/
def EFACT_SBS : ℝ := 3

/-- `#define EFACT_GPS_L5 10.0` (ppp.c line 96). -/
def EFACT_GPS_L5 : ℝ := 10

/-- Ionosphere options (`IONOOPT_*` in rtklib.h); only membership in
`IONOOPT_IFLC` matters in this file. -/
inductive IonoOpt
  | off
  | brdc
  | sbas
  | iflc
  | est
  | tec
  | stec
deriving DecidableEq

/-- Weighting modes (`WEIGHTOPT_*`). -/
inductive WeightMode
  | elevation
  | snr
deriving DecidableEq

/-- The slice of `prcopt_t` read by `varerr`. -/
structure ErrOpt where
  eratio0 : ℝ
  eratio1 : ℝ
  err1 : ℝ
  err2 : ℝ
  err5 : ℝ
  ionoopt : IonoOpt
  weightmode : WeightMode

/-- The `switch (sys)` factor (ppp.c lines 396-401); `SYS_QZS` has no case
and falls through to the default `EFACT_GPS`. -/
def sysEfact (sys : Sys) : ℝ :=
  match sys with
  | .gps => EFACT_GPS
  | .glo => EFACT_GLO
  | .sbs => EFACT_SBS
  | _ => EFACT_GPS

/-- `varerr` (ppp.c lines 386-420): `typ = 1` selects code (eratio), `freq`
is the 0-based frequency index, elevation `el` in radians and SNR in dBHz. -/
def varerr (sys : Sys) (el snr : ℝ) (freq typ : ℕ) (opt : ErrOpt) : ℝ :=
  let fact0 : ℝ := if typ = 1 then (if freq = 0 then opt.eratio0 else opt.eratio1) else 1
  let fact1 := fact0 * sysEfact sys
  let fact2 := if (sys = .gps ∨ sys = .qzs) ∧ freq = 2 then fact1 * EFACT_GPS_L5 else fact1
  let a := fact2 * opt.err1
  let b := fact2 * opt.err2
  let fact := if opt.ionoopt = .iflc then (9 : ℝ) else 1
  match opt.weightmode with
  | .elevation => fact * (a^2 + (b / Real.sin el)^2)
  | .snr => fact * a^2 * (10 : ℝ) ^ ((1/10) * max (opt.err5 - snr) 0)

/-- C8: with identical satellite system, elevation, SNR, frequency,
measurement type and error settings, the variance in iono-free mode equals
exactly 9 times the variance in any non-iono-free ionosphere mode. -/
theorem varerr_iflc_scale (sys : Sys) (el snr : ℝ) (freq typ : ℕ) (opt : ErrOpt)
    (h : opt.ionoopt ≠ IonoOpt.iflc) :
    varerr sys el snr freq typ { opt with ionoopt := IonoOpt.iflc } =
      9 * varerr sys el snr freq typ opt := by
  obtain ⟨e0, e1, a1, b1, c1, io, wm⟩ := opt
  have h' : io ≠ IonoOpt.iflc := h
  cases wm
  · simp only [varerr]
    rw [if_pos trivial, if_neg h']
    ring
  · simp only [varerr]
    rw [if_pos trivial, if_neg h']
    ring

def optW8 : ErrOpt := ⟨1, 1, 1, 1, 1, IonoOpt.est, WeightMode.elevation⟩

/-- Witness for C8: concrete GPS measurement in elevation-weight mode with
estimated-iono settings. -/
theorem varerr_iflc_scale_w :
    varerr .gps 1 1 0 0 { optW8 with ionoopt := IonoOpt.iflc } =
      9 * varerr .gps 1 1 0 0 optW8 :=
  varerr_iflc_scale .gps 1 1 0 0 optW8 (by decide)

/-! ## Eclipse test (`testeclipse`, ppp.c lines 222-256) -/

def dot3 (a b : ℝ × ℝ × ℝ) : ℝ := a.1 * b.1 + a.2.1 * b.2.1 + a.2.2 * b.2.2

def norm3 (a : ℝ × ℝ × ℝ) : ℝ := Real.sqrt (dot3 a a)

/-- Does `p` match at the front of `h`? -/
def matchesAt : List Char → List Char → Bool
  | [], _ => true
  | _ :: _, [] => false
  | p :: ps, h :: hs => p == h && matchesAt ps hs

/-- Substring search on character lists (the semantics of C `strstr`). -/
def containsPat : List Char → List Char → Bool
  | pat, [] => pat.isEmpty
  | pat, h :: hs => matchesAt pat (h :: hs) || containsPat pat hs

/-- `strstr(hay, pat) != NULL`. -/
def strstrB (hay pat : String) : Bool := containsPat pat.data hay.data

/-- Per-satellite body of `testeclipse` (ppp.c lines 235-255): `typ` is
`nav->pcvs[sat-1].type`, `rs` the satellite ECEF position, `esun` the unit
sun direction; returns the (possibly zeroed) position.  The type guard
`if (*type && !strstr(type,"BLOCK IIA")) continue;` skips the test only for
satellites with a *nonempty* type that does not contain `"BLOCK IIA"`. -/
def testeclipse_sat (typ : String) (rs esun : ℝ × ℝ × ℝ) : ℝ × ℝ × ℝ :=
  let r := norm3 rs
  if r ≤ 0 then rs
  else if typ ≠ "" ∧ strstrB typ "BLOCK IIA" = false then rs
  else
    let cosa0 := dot3 rs esun / r
    let cosa := if cosa0 < -1 then (-1 : ℝ) else if cosa0 > 1 then 1 else cosa0
    let ang := Real.arccos cosa
    if ang < Real.pi / 2 ∨ r * Real.sin ang > RE_WGS84 then rs
    else (0, 0, 0)

def rsC : ℝ × ℝ × ℝ := (-26000000, 0, 0)

def esunC : ℝ × ℝ × ℝ := (1, 0, 0)

lemma rsC_norm : norm3 rsC = 26000000 := by
  have hd : dot3 rsC rsC = 26000000 ^ 2 := by rw [dot3]; norm_num [rsC]
  rw [norm3, hd]
  exact Real.sqrt_sq (by norm_num)

lemma rsC_clamp :
    (if dot3 rsC esunC / norm3 rsC < -1 then (-1 : ℝ)
     else if dot3 rsC esunC / norm3 rsC > 1 then 1 else dot3 rsC esunC / norm3 rsC) = -1 := by
  have hc : dot3 rsC esunC / norm3 rsC = -1 := by
    rw [rsC_norm, dot3]
    norm_num [rsC, esunC]
  rw [hc]
  norm_num

lemma eclipse_shadow_neg :
    ¬ (Real.arccos (-1) < Real.pi / 2 ∨
       (26000000 : ℝ) * Real.sin (Real.arccos (-1)) > RE_WGS84) := by
  rw [Real.arccos_neg_one, Real.sin_pi]
  push_neg
  constructor
  · linarith [Real.pi_pos]
  · norm_num [RE_WGS84]

/-- C9 counterexample: a shadowed satellite whose antenna type string is
*empty* — hence not a Block IIA satellite — still has its position zeroed,
because the guard `if (*type && !strstr(type,"BLOCK IIA"))` treats an empty
type like Block IIA. -/
theorem testeclipse_cex :
    testeclipse_sat "" rsC esunC = (0, 0, 0) ∧
    strstrB "" "BLOCK IIA" = false ∧
    rsC ≠ (0, 0, 0) := by
  refine ⟨?_, rfl, by norm_num [rsC]⟩
  have h1 : ¬ norm3 rsC ≤ 0 := by rw [rsC_norm]; norm_num
  have h2 : ¬ (("" : String) ≠ "" ∧ strstrB "" "BLOCK IIA" = false) := by simp
  simp only [testeclipse_sat]
  rw [if_neg h1, if_neg h2, rsC_clamp, rsC_norm, if_neg eclipse_shadow_neg]

/-- C9 amended: for a satellite with a nonzero position, the eclipse test
zeroes the position exactly when the type string is empty or contains
`"BLOCK IIA"` and the sun-earth-satellite angle test fails (neither
`ang < pi/2` nor `r*sin(ang) > RE_WGS84`); in every other case the position
is returned unchanged. -/
theorem testeclipse_sat_spec (typ : String) (rs esun : ℝ × ℝ × ℝ)
    (hr : 0 < norm3 rs) :
    ((typ = "" ∨ strstrB typ "BLOCK IIA" = true) ∧
       ¬ (Real.arccos (if dot3 rs esun / norm3 rs < -1 then (-1 : ℝ)
             else if dot3 rs esun / norm3 rs > 1 then 1 else dot3 rs esun / norm3 rs) <
             Real.pi / 2 ∨
           norm3 rs * Real.sin (Real.arccos (if dot3 rs esun / norm3 rs < -1 then (-1 : ℝ)
             else if dot3 rs esun / norm3 rs > 1 then 1 else dot3 rs esun / norm3 rs)) >
             RE_WGS84) →
       testeclipse_sat typ rs esun = (0, 0, 0)) ∧
    (¬ ((typ = "" ∨ strstrB typ "BLOCK IIA" = true) ∧
       ¬ (Real.arccos (if dot3 rs esun / norm3 rs < -1 then (-1 : ℝ)
             else if dot3 rs esun / norm3 rs > 1 then 1 else dot3 rs esun / norm3 rs) <
             Real.pi / 2 ∨
           norm3 rs * Real.sin (Real.arccos (if dot3 rs esun / norm3 rs < -1 then (-1 : ℝ)
             else if dot3 rs esun / norm3 rs > 1 then 1 else dot3 rs esun / norm3 rs)) >
             RE_WGS84)) →
       testeclipse_sat typ rs esun = rs) := by
  have h1 : ¬ norm3 rs ≤ 0 := not_le.mpr hr
  by_cases htyp : typ ≠ "" ∧ strstrB typ "BLOCK IIA" = false
  · constructor
    · rintro ⟨hok, -⟩
      rcases hok with h | h
      · exact absurd h htyp.1
      · rw [htyp.2] at h; exact absurd h (by simp)
    · intro _h
      simp only [testeclipse_sat]
      rw [if_neg h1, if_pos htyp]
  · have hok : typ = "" ∨ strstrB typ "BLOCK IIA" = true := by
      rcases not_and_or.mp htyp with h | h
      · exact Or.inl (not_not.mp h)
      · exact Or.inr (by
          cases hb : strstrB typ "BLOCK IIA"
          · exact absurd hb h
          · rfl)
    by_cases hsh : Real.arccos (if dot3 rs esun / norm3 rs < -1 then (-1 : ℝ)
          else if dot3 rs esun / norm3 rs > 1 then 1 else dot3 rs esun / norm3 rs) <
          Real.pi / 2 ∨
        norm3 rs * Real.sin (Real.arccos (if dot3 rs esun / norm3 rs < -1 then (-1 : ℝ)
          else if dot3 rs esun / norm3 rs > 1 then 1 else dot3 rs esun / norm3 rs)) >
          RE_WGS84
    · constructor
      · rintro ⟨-, hns⟩
        exact absurd hsh hns
      · intro _h
        simp only [testeclipse_sat]
        rw [if_neg h1, if_neg htyp, if_pos hsh]
    · constructor
      · intro _h
        simp only [testeclipse_sat]
        rw [if_neg h1, if_neg htyp, if_neg hsh]
      · intro hno
        exact absurd ⟨hok, hsh⟩ hno

/-- Witness for C9: a shadowed `"BLOCK IIA"` satellite is zeroed. -/
theorem testeclipse_sat_spec_w :
    testeclipse_sat "BLOCK IIA" rsC esunC = (0, 0, 0) := by
  have hr : (0 : ℝ) < norm3 rsC := by rw [rsC_norm]; norm_num
  refine (testeclipse_sat_spec "BLOCK IIA" rsC esunC hr).1 ⟨Or.inr rfl, ?_⟩
  rw [rsC_clamp, rsC_norm]
  exact eclipse_shadow_neg

/-! ## State indexer (ppp.c lines 105-119) and solution-status writer
(`pppoutstat`, ppp.c lines 131-221)

The number formatting of `sprintf` is abstracted: the writer produces the
ordered list of emitted records together with their numeric payloads, and
the returned character count is the total length of the rendered lines
under a given rendering-length function, mirroring `p - buff`. -/

/-- Troposphere options (`TROPOPT_*` in rtklib.h), in their enum order. -/
inductive TropOpt
  | off
  | saas
  | sbas
  | est
  | estg
  | ztd
deriving DecidableEq

/-- The enum value, used for the order comparison in `NT`. -/
def tropOptNum : TropOpt → ℕ
  | .off => 0
  | .saas => 1
  | .sbas => 2
  | .est => 3
  | .estg => 4
  | .ztd => 5

/-- The slice of `prcopt_t` read by the indexer and `pppoutstat`. -/
structure PppOpt where
  dynamics : Bool
  tropopt : TropOpt
  ionoopt : IonoOpt
  nf : ℕ

/-- `NSYS` (rtklib.h): number of receiver clock states; ppp.c line 167
documents them as GPS, GLO, Gal, BDS. -/
def NSYS : ℕ := 4

/-- `NF(opt)` (ppp.c line 106). -/
def NFopt (o : PppOpt) : ℕ := if o.ionoopt = IonoOpt.iflc then 1 else o.nf

/-- `NP(opt)` (ppp.c line 107). -/
def NP (o : PppOpt) : ℕ := if o.dynamics then 9 else 3

/-- `NC(opt)` (ppp.c line 108). -/
def NC (_ : PppOpt) : ℕ := NSYS

/-- `NT(opt)` (ppp.c line 109). -/
def NT (o : PppOpt) : ℕ :=
  if tropOptNum o.tropopt < tropOptNum TropOpt.est then 0
  else if o.tropopt = TropOpt.est then 1 else 3

/-- `NI(opt)` (ppp.c line 110). -/
def NI (o : PppOpt) (maxsat : ℕ) : ℕ := if o.ionoopt = IonoOpt.est then maxsat else 0

/-- `ND(opt)` (ppp.c line 111). -/
def ND (o : PppOpt) : ℕ := if 3 ≤ o.nf then 1 else 0

/-- `NR(opt)` (ppp.c line 112). -/
def NR (o : PppOpt) (maxsat : ℕ) : ℕ := NP o + NC o + NT o + NI o maxsat + ND o

/-- `IC(s,opt)` (ppp.c line 115). -/
def IC (s : ℕ) (o : PppOpt) : ℕ := NP o + s

/-- `IT(opt)` (ppp.c line 116). -/
def IT (o : PppOpt) : ℕ := NP o + NC o

/-- `II(s,opt)` (ppp.c line 117). -/
def II (s : ℕ) (o : PppOpt) : ℕ := NP o + NC o + NT o + s - 1

/-- `ID(opt)` (ppp.c line 118). -/
def ID (o : PppOpt) (maxsat : ℕ) : ℕ := NP o + NC o + NT o + NI o maxsat

/-- `IB(s,f,opt)` (ppp.c line 119). -/
def IB (s f : ℕ) (o : PppOpt) (maxsat : ℕ) : ℕ := NR o maxsat + maxsat * f + s - 1

/-- `SOLQ_FIX` (rtklib.h); `SOLQ_NONE` is 0. -/
def SOLQ_FIX : ℕ := 1

/-- `R2D` (rtklib.h). -/
def R2D : ℝ := 180 / Real.pi

/-- `CLIGHT` as a real number. -/
def CLIGHTr : ℝ := 299792458

/-- The per-satellite fields read by `pppoutstat`. -/
structure SsatRec where
  vsat0 : Bool
  vs : Bool
  az : ℝ
  el : ℝ

/-- The slice of `rtk_t` read by `pppoutstat`.  `p` and `pa` are the
covariance diagonals of the float and fixed solutions. -/
structure RtkOut where
  stat : ℕ
  week : ℤ
  tow : ℝ
  rr : ℕ → ℝ
  x : ℕ → ℝ
  p : ℕ → ℝ
  xa : ℕ → ℝ
  pa : ℕ → ℝ
  ssat : ℕ → SsatRec
  opt : PppOpt
  maxsat : ℕ

/-- `STD` (ppp.c lines 131-136): reads `Pa` when the solution is fixed,
`P` otherwise; the `SQRT` macro maps nonpositive arguments to 0, exactly as
`Real.sqrt` does. -/
def STD (s : RtkOut) (i : ℕ) : ℝ :=
  if s.stat = SOLQ_FIX then Real.sqrt (s.pa i) else Real.sqrt (s.p i)

/-- One emitted status record: its tag and numeric payload in print order. -/
structure StatLine where
  tag : String
  vals : List ℝ

/-- External collaborators of `pppoutstat` (rtkcmn.c): geodetic conversion
and ECEF→ENU rotation. -/
structure Collab where
  ecef2pos : ℝ × ℝ × ℝ → ℝ × ℝ × ℝ
  ecef2enu : ℝ × ℝ × ℝ → ℝ × ℝ × ℝ → ℝ × ℝ × ℝ

/-- `pppoutstat` (ppp.c lines 138-221): returns the emitted records and the
total rendered length (the C return value `p - buff`). -/
def pppoutstat (cb : Collab) (len : StatLine → ℕ) (s : RtkOut) : List StatLine × ℕ :=
  if s.stat = 0 then ([], 0)
  else
    let x : ℕ → ℝ := if s.stat = SOLQ_FIX then s.xa else s.x
    let posL : StatLine :=
      ⟨"$POS", [(s.week : ℝ), s.tow, (s.stat : ℝ), x 0, x 1, x 2,
                STD s 0, STD s 1, STD s 2]⟩
    let velL : List StatLine :=
      if s.opt.dynamics = true then
        let pos := cb.ecef2pos (s.rr 0, s.rr 1, s.rr 2)
        let vel := cb.ecef2enu pos (s.x 3, s.x 4, s.x 5)
        let acc := cb.ecef2enu pos (s.x 6, s.x 7, s.x 8)
        [⟨"$VELACC", [(s.week : ℝ), s.tow, (s.stat : ℝ), vel.1, vel.2.1, vel.2.2,
                      acc.1, acc.2.1, acc.2.2, 0, 0, 0, 0, 0, 0]⟩]
      else []
    let i0 := IC 0 s.opt
    let clkL : StatLine :=
      ⟨"$CLK", [(s.week : ℝ), s.tow, (s.stat : ℝ), 1,
                x i0 * 1000000000 / CLIGHTr, x (i0+1) * 1000000000 / CLIGHTr,
                x (i0+2) * 1000000000 / CLIGHTr, x (i0+3) * 1000000000 / CLIGHTr,
                STD s i0 * 1000000000 / CLIGHTr, STD s (i0+1) * 1000000000 / CLIGHTr,
                STD s (i0+2) * 1000000000 / CLIGHTr, STD s (i0+3) * 1000000000 / CLIGHTr]⟩
    let tropL : List StatLine :=
      if s.opt.tropopt = TropOpt.est ∨ s.opt.tropopt = TropOpt.estg then
        [⟨"$TROP", [(s.week : ℝ), s.tow, (s.stat : ℝ), 1, x (IT s.opt), STD s (IT s.opt)]⟩]
      else []
    let trpgL : List StatLine :=
      if s.opt.tropopt = TropOpt.estg then
        [⟨"$TRPG", [(s.week : ℝ), s.tow, (s.stat : ℝ), 1, x (IT s.opt + 1),
                    x (IT s.opt + 2), STD s (IT s.opt + 1), STD s (IT s.opt + 2)]⟩]
      else []
    let ionL : List StatLine :=
      if s.opt.ionoopt = IonoOpt.est then
        (List.range s.maxsat).filterMap fun i =>
          if (s.ssat i).vsat0 = true ∧ (s.ssat i).vs = true then
            if s.x (II (i+1) s.opt) = 0 then none
            else some ⟨"$ION", [(s.week : ℝ), s.tow, (s.stat : ℝ), ((i+1 : ℕ) : ℝ),
                       (s.ssat i).az * R2D, (s.ssat i).el * R2D,
                       x (II (i+1) s.opt), STD s (II (i+1) s.opt)]⟩
          else none
      else []
    let dcbL : StatLine :=
      ⟨"$DCB", [(s.week : ℝ), s.tow, (s.stat : ℝ), 1, x (ID s.opt s.maxsat),
                STD s (ID s.opt s.maxsat)]⟩
    let ambL : List StatLine :=
      (List.range s.maxsat).flatMap fun i =>
        (List.range (NFopt s.opt)).filterMap fun j =>
          if (s.ssat i).vsat0 = true ∧ (s.ssat i).vs = true then
            some ⟨"$AMB", [(s.week : ℝ), s.tow, (s.stat : ℝ), ((i+1 : ℕ) : ℝ),
                   ((j+1 : ℕ) : ℝ), x (IB (i+1) j s.opt s.maxsat),
                   STD s (IB (i+1) j s.opt s.maxsat)]⟩
          else none
    let lines := posL :: (velL ++ [clkL] ++ tropL ++ trpgL ++ ionL ++ [dcbL] ++ ambL)
    (lines, (lines.map len).sum)

/-- C10: with solution status NONE (`stat = 0`) the writer emits nothing
and returns 0; with any other status it returns the total length of what it
wrote, and the leading `$POS` record reads positions from `xa` and standard
deviations from `Pa` when the status is FIX, and from `x`/`P` otherwise. -/
theorem pppoutstat_spec (cb : Collab) (len : StatLine → ℕ) (s : RtkOut) :
    (s.stat = 0 → pppoutstat cb len s = ([], 0)) ∧
    (s.stat ≠ 0 →
      (pppoutstat cb len s).2 = ((pppoutstat cb len s).1.map len).sum ∧
      ∃ rest, (pppoutstat cb len s).1 =
        ⟨"$POS", [(s.week : ℝ), s.tow, (s.stat : ℝ),
           (if s.stat = SOLQ_FIX then s.xa 0 else s.x 0),
           (if s.stat = SOLQ_FIX then s.xa 1 else s.x 1),
           (if s.stat = SOLQ_FIX then s.xa 2 else s.x 2),
           (if s.stat = SOLQ_FIX then Real.sqrt (s.pa 0) else Real.sqrt (s.p 0)),
           (if s.stat = SOLQ_FIX then Real.sqrt (s.pa 1) else Real.sqrt (s.p 1)),
           (if s.stat = SOLQ_FIX then Real.sqrt (s.pa 2) else Real.sqrt (s.p 2))]⟩ :: rest) := by
  constructor
  · intro h
    rw [pppoutstat, if_pos h]
  · intro h
    by_cases hc : s.stat = SOLQ_FIX
    · rw [pppoutstat, if_neg h]
      refine ⟨rfl, ?_⟩
      simp only [STD, if_pos hc]
      exact ⟨_, rfl⟩
    · rw [pppoutstat, if_neg h]
      refine ⟨rfl, ?_⟩
      simp only [STD, if_neg hc]
      exact ⟨_, rfl⟩

def cb0 : Collab := ⟨fun v => v, fun _ v => v⟩

def len0 : StatLine → ℕ := fun _ => 1

def sNone : RtkOut :=
  ⟨0, 0, 0, fun _ => 0, fun _ => 0, fun _ => 0, fun _ => 0, fun _ => 0,
   fun _ => ⟨false, false, 0, 0⟩, ⟨false, TropOpt.off, IonoOpt.off, 2⟩, 3⟩

/-- Witness for C10: a NONE-status state writes nothing and returns 0. -/
theorem pppoutstat_spec_w : pppoutstat cb0 len0 sNone = ([], 0) :=
  (pppoutstat_spec cb0 len0 sNone).1 rfl
